import Mathlib

/-!
Shallow embedding of `src/koji_containerbuild/plugins/builder_containerbuild.py`
(koji-containerbuild builder plugin).

The plugin defines two task handlers:
  * `CreateContainerTask.handler` (method `createContainer`): the
    per-architecture build task;
  * `BuildContainerTask.handler` (method `buildContainer`): the orchestrator,
    with helpers `runBuilds`, `getArchList` and `_raise_if_image_failed`.

External collaborators (the koji session / host RPC interface, `koji.canonArch`,
the `SCM` class from `koji.daemon`, and the OSBS client) are modelled as oracle
functions collected in environment structures.  Exceptions are modelled with
`Except`; side-effecting calls on `session.host` are modelled as an explicit
trace (`List HostCall`) returned alongside the result.
-/

namespace KojiContainerBuild

/-- Exceptions that the plugin's code can raise or re-raise.  `buildError`
models `koji.BuildError`, `containerError` models the plugin's `ContainerError`,
`notImplementedError` models Python's `NotImplementedError`; `systemExit`,
`serverExit` and `keyboardInterrupt` model the cancellation / exit signals
listed in the handler's first `except` clause; `genericError` stands for any
other propagated exception. -/
inductive KojiErr where
  | buildError (msg : String)
  | containerError (msg : String)
  | notImplementedError (msg : String)
  | systemExit
  | serverExit
  | keyboardInterrupt
  | genericError (msg : String)
  deriving DecidableEq, Repr

/-- The cancellation / exit signals that the orchestrator's first `except`
clause (`except (SystemExit, ServerExit, KeyboardInterrupt)`) matches. -/
def KojiErr.isCancelSignal : KojiErr → Bool
  | .systemExit => true
  | .serverExit => true
  | .keyboardInterrupt => true
  | _ => false

/-- Python truthiness of a string: non-empty strings are truthy. -/
def pyStrTruthy (s : String) : Bool := !s.isEmpty

/-- Python truthiness of an optional string argument (`None` and `''` are
falsy). -/
def optTruthy : Option String → Bool
  | none => false
  | some s => pyStrTruthy s

/-- Python's `str.split()` with no argument: split on runs of whitespace,
discarding empty tokens. -/
def pySplit (s : String) : List String :=
  ((s.data.splitOnP Char.isWhitespace).filter (fun l => !l.isEmpty)).map
    (fun l => String.mk l)

/-- The key list of a Python dict built by inserting each element of `l` in
order (`for a in l: d[a] = 1; d.keys()`): duplicates collapse, keeping the
first occurrence of each key.  First-occurrence deduplication is obtained by
deduplicating the reversed list (Mathlib's `List.dedup` keeps last
occurrences) and reversing back. -/
def dictKeys (l : List String) : List String := l.reverse.dedup.reverse

/-- Result of `session.getBuildConfig(build_tag, event=...)`: the fields the
plugin reads (`name`/`id` only feed the `No arches` error message, `arches` is
the space-separated declared arch string; `""` models a falsy value). -/
structure BuildConfig where
  name : String
  id : Nat
  arches : String
  deriving DecidableEq, Repr

/-- Result of `session.getBuildTarget(target, event=...)`: the fields the
plugin reads. -/
structure TargetInfo where
  name : String
  build_tag : String
  deriving DecidableEq, Repr

/-- The dict returned by `CreateContainerTask.handler` (`imgdata`), which is
also the per-subtask result the orchestrator aggregates.  The source builds it
with exactly the three keys `task_id`, `logs` and `osbs_build_id`. -/
structure ImgData where
  task_id : Nat
  logs : List String
  osbs_build_id : String
  deriving DecidableEq, Repr

/-- The options dict of `buildContainer` as the live code reads it:
`opts.get('scratch')` and `opts.get('arch_override')`.  (The
`name`/`version`/`release` options are read only in the dead code after the
unconditional `raise NotImplementedError` on the non-scratch path.) -/
structure Opts where
  scratch : Bool
  arch_override : Option String
  deriving DecidableEq, Repr

/-- Oracle environment for one `BuildContainerTask.handler` run: the koji
session / host answers and `koji.canonArch`, fixed for the run (the code
snapshots an event id for consistent lookups). -/
structure BuildEnv where
  getBuildConfig : String → BuildConfig
  canonArch : String → String
  getBuildTarget : String → TargetInfo
  isScmUrl : String → Bool
  subtaskId : String → Nat
  wait : List Nat → Except KojiErr (List (Nat × ImgData))
  osbsIsFailed : String → Bool

/-- The filter / dedup / emptiness-check tail of `getArchList` (source lines
181-189): keep a token iff it equals `'noarch'` or its canonical form is in
`tag_archlist`, collapse duplicates via dict insertion, and fail with
`No matching arches were found` if nothing is left. -/
def archFilterStep (env : BuildEnv) (tag_archlist archlist : List String) :
    Except KojiErr (List String) :=
  let keys := dictKeys (archlist.filter
    (fun a => a == "noarch" || tag_archlist.contains (env.canonArch a)))
  if keys.isEmpty then .error (.buildError "No matching arches were found")
  else .ok keys

/-- `BuildContainerTask.getArchList(build_tag, extra=None)` (source lines
160-189).  `opts` is `self.opts`.  Raises `No arches for tag ...` when the
build config's arch string is falsy; appends `extra` when truthy; replaces the
working list with the override tokens when `self.opts.get('scratch')` and the
override are truthy; then filters against the canonicalized tag arches. -/
def getArchList (env : BuildEnv) (build_tag : String) (extra : Option String)
    (opts : Opts) : Except KojiErr (List String) :=
  let bc := env.getBuildConfig build_tag
  if !pyStrTruthy bc.arches then
    .error (.buildError
      ("No arches for tag " ++ bc.name ++ " [" ++ toString bc.id ++ "]"))
  else
    let tag_archlist := (pySplit bc.arches).map env.canonArch
    let archesStr :=
      match extra with
      | some e => if pyStrTruthy e then bc.arches ++ " " ++ e else bc.arches
      | none => bc.arches
    let archlist := pySplit archesStr
    let override := opts.arch_override
    let archlist :=
      if opts.scratch && optTruthy override then pySplit (override.getD "")
      else archlist
    archFilterStep env tag_archlist archlist

/-- One side-effecting call on `session.host` made by the orchestrator.
`subtask` records a `session.host.subtask(method='createContainer',
arglist=[src, target_info, build_tag, arch], ...)` dispatch together with the
task id it returned; `moveContainerToScratch` and the two calls that are dead
code on the current (scratch-only) paths record the finalization calls. -/
inductive HostCall where
  | subtask (src : String) (target_info : TargetInfo) (build_tag : String)
      (arch : String) (taskId : Nat)
  | moveContainerToScratch (taskId : Nat) (results : List (String × ImgData))
  | completeContainerBuild (taskId : Nat) (buildId : Nat)
      (results : List (String × ImgData))
  | failBuild (taskId : Nat) (buildId : Nat)
  deriving DecidableEq, Repr

/-- `BuildContainerTask.runBuilds(src, target_info, build_tag, arches)`
(source lines 143-158): dispatch one `createContainer` subtask per arch,
recording `subtasks[arch] = taskId`, then join with
`self.wait(subtasks.values(), all=True, failany=True)`.  Returns the join's
outcome (the dict `{taskId: result}` as an association list, or the exception
the fail-fast join raised) together with the trace of host calls made. -/
def runBuilds (env : BuildEnv) (src : String) (target_info : TargetInfo)
    (build_tag : String) (arches : List String) :
    Except KojiErr (List (Nat × ImgData)) × List HostCall :=
  let subtasks := arches.map (fun arch => (arch, env.subtaskId arch))
  (env.wait (subtasks.map Prod.snd),
   subtasks.map (fun p => HostCall.subtask src target_info build_tag p.1 p.2))

/-- `BuildContainerTask.handler(src, target, opts)` (source lines 195-258),
the `buildContainer` orchestrator.  Returns the run's outcome together with
the trace of side-effecting `session.host` calls, in order.

Faithfulness notes on control flow:
  * the non-scratch gate (line 207) raises `NotImplementedError`
    unconditionally, so the code after it up to the `try` (lines 211-225,
    including `initContainerBuild`) is dead and the `try` block is only ever
    entered with a truthy scratch flag; consequently the non-scratch re-checks
    inside the `try` (line 241) and inside the bare `except` (line 252) are
    unreachable and the `except` clauses reduce to a bare re-raise;
  * `for result in results.values(): self._raise_if_image_failed(...)`
    (lines 246-247, 260-263) raises `ContainerError('Image build failed')`
    at the first result whose OSBS build `is_failed()`, modelled by `find?`;
  * `results_xmlrpc[str(task_id)] = result` (line 236) stringifies the
    task-id keys of the join result. -/
def buildContainerHandler (env : BuildEnv) (selfId : Nat) (src : String)
    (target : String) (opts : Opts) : Except KojiErr Unit × List HostCall :=
  let target_info := env.getBuildTarget target
  let build_tag := target_info.build_tag
  match getArchList env build_tag none opts with
  | .error e => (.error e, [])
  | .ok archlist =>
    if !opts.scratch then
      (.error (.notImplementedError
        "Non-scratch container builds support isn't finished yet"), [])
    else if !env.isScmUrl src then
      (.error (.buildError ("Invalid source specification: " ++ src)), [])
    else
      match runBuilds env src target_info build_tag archlist with
      | (.error e, calls) => (.error e, calls)
      | (.ok results, calls) =>
        let results_xmlrpc := results.map (fun p => (toString p.1, p.2))
        let calls :=
          calls ++ [HostCall.moveContainerToScratch selfId results_xmlrpc]
        match results.find? (fun p => env.osbsIsFailed p.2.osbs_build_id) with
        | some _ => (.error (.containerError "Image build failed"), calls)
        | none => (.ok (), calls)

/-- The fields of the `SCM` object (from `koji.daemon`, an external
collaborator) that `CreateContainerTask.handler` reads after `SCM(src)` and
`scm.assert_allowed(...)` succeed. -/
structure ScmInfo where
  scheme : String
  host : String
  repository : String
  revision : String
  deriving DecidableEq, Repr

/-- `os.path.basename`: everything after the last `'/'` (the whole string when
it has no `'/'`, empty when it ends in `'/'`). -/
def basename (path : String) : String :=
  String.mk ((path.data.reverse.takeWhile (fun c => c ≠ '/')).reverse)

/-- Python's `s[:-4]`: drop the last four characters. -/
def dropLast4 (s : String) : String := String.mk ((s.data.reverse.drop 4).reverse)

/-- Whether `repository` ends with `'.git'` (`str.endswith('.git')`). -/
def endsWithGit (repository : String) : Bool :=
  repository.data.reverse.take 4 == ['t', 'i', 'g', '.']

/-- Component-name derivation of `CreateContainerTask.handler` (source lines
82-86): `component = os.path.basename(scm.repository)`, replaced by
`os.path.basename(scm.repository[:-4])` when the repository path ends with
`'.git'`. -/
def componentOf (repository : String) : String :=
  if endsWithGit repository then basename (dropLast4 repository)
  else basename repository

/-- The scheme normalization of source lines 78-80: if the scheme contains
`'+'`, keep `scheme.split('+')[1]`. -/
def schemePart (scheme : String) : String :=
  if scheme.contains '+' then (scheme.splitOn "+").getD 1 ""
  else scheme

/-- `git_uri = '%s%s%s' % (scheme, scm.host, scm.repository)` (source line
81) after scheme normalization. -/
def mkGitUri (scm : ScmInfo) : String :=
  schemePart scm.scheme ++ scm.host ++ scm.repository

/-- Oracle environment for one `CreateContainerTask.handler` run.
`ownerName` models `session.getUser(getTaskInfo(id)['owner'])['name']`;
`parseScm` models `SCM(src)` plus `scm.assert_allowed(...)` (its error case
covers both `InvalidSourceError`-style parse failures and disallowed hosts);
`createBuild` models `osbs.create_build(git_uri, git_ref, user, component,
target, architecture).build_id`; `waitForBuild` models
`osbs.wait_for_build_to_finish`; `getBuildLogs` models
`osbs.get_build_logs`. -/
structure CreateEnv where
  ownerName : String
  parseScm : String → Except KojiErr ScmInfo
  createBuild : String → String → String → String → String → String → String
  waitForBuild : String → Except KojiErr Unit
  getBuildLogs : String → String

/-- `CreateContainerTask._download_logs(osbs_build_id)` (source lines 48-57):
fetches the log text and writes it to `build.log` in the task's private
working directory (a file-system effect outside the model), then returns the
literal list `['build.log']` whatever the log content was. -/
def downloadLogs (env : CreateEnv) (osbs_build_id : String) : List String :=
  let _build_log_contents := env.getBuildLogs osbs_build_id
  ["build.log"]

/-- `CreateContainerTask.handler(src, target_info, build_tag, arch)` (source
lines 68-116), the `createContainer` per-architecture task.  On success it
returns the `imgdata` dict with exactly the keys `task_id` (the task's own
id), `logs` (from `_download_logs`) and `osbs_build_id` (from
`create_build`).  The `uploadFile` loop is a session artifact upload with no
effect on the returned value. -/
def createContainerHandler (env : CreateEnv) (selfId : Nat) (src : String)
    (target_info : TargetInfo) (_build_tag : String) (arch : String) :
    Except KojiErr ImgData :=
  match env.parseScm src with
  | .error e => .error e
  | .ok scm =>
    let git_uri := mkGitUri scm
    let component := componentOf scm.repository
    let build_id := env.createBuild git_uri scm.revision env.ownerName
      component target_info.name arch
    match env.waitForBuild build_id with
    | .error e => .error e
    | .ok _ =>
      let logs := downloadLogs env build_id
      .ok { task_id := selfId, logs := logs, osbs_build_id := build_id }

/-! ### Helper lemmas -/

theorem mem_dictKeys {a : String} {l : List String} :
    a ∈ dictKeys l ↔ a ∈ l := by
  simp [dictKeys, List.mem_dedup]

theorem nodup_dictKeys (l : List String) : (dictKeys l).Nodup := by
  simp [dictKeys]
  exact List.nodup_dedup _

theorem dictKeys_eq_nil {l : List String} : dictKeys l = [] ↔ l = [] := by
  constructor
  · intro h
    have h2 : l.reverse.dedup = [] := List.reverse_eq_nil_iff.mp h
    have h3 : l.reverse = [] := (List.dedup_eq_nil l.reverse).mp h2
    exact List.reverse_eq_nil_iff.mp h3
  · intro h
    simp [h, dictKeys]

theorem archFilterStep_ok {env : BuildEnv} {tag_archlist archlist l :
    List String} (h : archFilterStep env tag_archlist archlist = .ok l) :
    l ≠ [] ∧ l.Nodup ∧
      ∀ a ∈ l, a ∈ archlist ∧
        (a = "noarch" ∨ tag_archlist.contains (env.canonArch a) = true) := by
  unfold archFilterStep at h
  dsimp only at h
  split at h
  · exact absurd h (by simp)
  · rename_i hk
    have hl : dictKeys (archlist.filter
        (fun a => a == "noarch" || tag_archlist.contains (env.canonArch a)))
        = l := by
      exact Except.ok.inj h
    refine ⟨?_, hl ▸ nodup_dictKeys _, ?_⟩
    · intro hnil
      rw [hnil] at hl
      exact hk (by rw [hl]; rfl)
    · intro a ha
      rw [← hl] at ha
      have hmem := mem_dictKeys.mp ha
      have hfil := List.mem_filter.mp hmem
      refine ⟨hfil.1, ?_⟩
      have hp := hfil.2
      simp only [Bool.or_eq_true, beq_iff_eq] at hp
      cases hp with
      | inl h1 => exact Or.inl h1
      | inr h2 => exact Or.inr h2

/-- The canonicalized tag-declared arch list of `getArchList`
(`tag_archlist = [koji.canonArch(a) for a in arches.split()]`, source line
168). -/
def tagArchlist (env : BuildEnv) (build_tag : String) : List String :=
  (pySplit (env.getBuildConfig build_tag).arches).map env.canonArch

/-- The working arch list of `getArchList` just before the filter loop
(source lines 170-180): declared arches, plus `extra` when truthy, replaced
by the override tokens when scratch and the override are truthy. -/
def workingArchlist (env : BuildEnv) (build_tag : String)
    (extra : Option String) (opts : Opts) : List String :=
  let bc := env.getBuildConfig build_tag
  let archesStr :=
    match extra with
    | some e => if pyStrTruthy e then bc.arches ++ " " ++ e else bc.arches
    | none => bc.arches
  if opts.scratch && optTruthy opts.arch_override then
    pySplit (opts.arch_override.getD "")
  else pySplit archesStr

theorem getArchList_eq_filterStep {env : BuildEnv} {build_tag : String}
    {extra : Option String} {opts : Opts}
    (h : pyStrTruthy (env.getBuildConfig build_tag).arches = true) :
    getArchList env build_tag extra opts =
      archFilterStep env (tagArchlist env build_tag)
        (workingArchlist env build_tag extra opts) := by
  unfold getArchList workingArchlist tagArchlist
  simp only [h, Bool.not_true, Bool.false_eq_true, if_false]

/-- C5: whenever `getArchList` returns normally, the returned list is
non-empty and duplicate-free, and every element either equals `'noarch'` or
has its canonical form among the canonicalized tag-declared arches; and when
the filter leaves nothing of the working list (the declared-arch gate having
passed), the call fails with the `No matching arches were found` error. -/
theorem getArchList_success_shape (env : BuildEnv) (build_tag : String)
    (extra : Option String) (opts : Opts) :
    (∀ l, getArchList env build_tag extra opts = .ok l →
      l ≠ [] ∧ l.Nodup ∧
        ∀ a ∈ l, a = "noarch" ∨
          (tagArchlist env build_tag).contains (env.canonArch a) = true)
    ∧ ((workingArchlist env build_tag extra opts).filter
          (fun a => a == "noarch" ||
            (tagArchlist env build_tag).contains (env.canonArch a)) = [] →
        pyStrTruthy (env.getBuildConfig build_tag).arches = true →
        getArchList env build_tag extra opts =
          .error (.buildError "No matching arches were found")) := by
  constructor
  · intro l h
    by_cases harch : pyStrTruthy (env.getBuildConfig build_tag).arches = true
    · rw [getArchList_eq_filterStep harch] at h
      obtain ⟨h1, h2, h3⟩ := archFilterStep_ok h
      exact ⟨h1, h2, fun a ha => (h3 a ha).2⟩
    · rw [Bool.not_eq_true] at harch
      unfold getArchList at h
      simp [harch] at h
  · intro hfil harch
    rw [getArchList_eq_filterStep harch]
    unfold archFilterStep
    dsimp only
    rw [hfil]
    rfl

/-- Sample per-arch subtask result for task 101. -/
def sampleImg : ImgData :=
  { task_id := 101, logs := ["build.log"], osbs_build_id := "osbs-1" }

/-- Sample per-arch subtask result for task 102. -/
def sampleImg2 : ImgData :=
  { task_id := 102, logs := ["build.log"], osbs_build_id := "osbs-2" }

/-- A concrete session environment: one target whose build tag declares
arches `x86_64 ppc64le`, identity canonicalization, distinct subtask ids per
arch, a join that returns one successful result per subtask. -/
def sampleEnv : BuildEnv where
  getBuildConfig := fun _ => { name := "t1-build", id := 1, arches := "x86_64 ppc64le" }
  canonArch := id
  getBuildTarget := fun t => { name := t, build_tag := "t1-build" }
  isScmUrl := fun _ => true
  subtaskId := fun a => if a = "x86_64" then 101 else 102
  wait := fun _ => .ok [(101, sampleImg), (102, sampleImg2)]
  osbsIsFailed := fun _ => false

theorem getArchList_success_shape_witness :
    ((["x86_64", "ppc64le"] : List String) ≠ [] ∧
      (["x86_64", "ppc64le"] : List String).Nodup ∧
        ∀ a ∈ (["x86_64", "ppc64le"] : List String), a = "noarch" ∨
          (tagArchlist sampleEnv "t1-build").contains (sampleEnv.canonArch a) = true)
    ∧ getArchList sampleEnv "t1-build" none { scratch := true, arch_override := some "s390x" } =
        .error (.buildError "No matching arches were found") :=
  ⟨(getArchList_success_shape sampleEnv "t1-build" none
      { scratch := true, arch_override := none }).1 ["x86_64", "ppc64le"] rfl,
   (getArchList_success_shape sampleEnv "t1-build" none
      { scratch := true, arch_override := some "s390x" }).2 rfl rfl⟩

theorem archFilterStep_ok_eq {env : BuildEnv} {tag_archlist archlist l :
    List String} (h : archFilterStep env tag_archlist archlist = .ok l) :
    l = dictKeys (archlist.filter
      (fun a => a == "noarch" || tag_archlist.contains (env.canonArch a))) := by
  unfold archFilterStep at h
  dsimp only at h
  split at h
  · exact absurd h (by simp)
  · exact (Except.ok.inj h).symm

theorem workingArchlist_override {env : BuildEnv} {build_tag : String}
    {extra : Option String} {ov : Option String} (h : optTruthy ov = true) :
    workingArchlist env build_tag extra { scratch := true, arch_override := ov } =
      pySplit (ov.getD "") := by
  unfold workingArchlist
  simp [h]

/-- C6: in `getArchList` the working arch list is replaced entirely by the
override tokens iff the scratch flag and the override option are truthy; with
scratch unset the override is ignored (the result does not depend on it) and,
the declared-arch gate having passed, the result is the filtered
tag-declared arch list. -/
theorem getArchList_override_policy (env : BuildEnv) (build_tag : String) :
    (∀ extra ov, optTruthy ov = true →
      workingArchlist env build_tag extra
          { scratch := true, arch_override := ov } = pySplit (ov.getD ""))
    ∧ (∀ extra (opts : Opts),
        (opts.scratch && optTruthy opts.arch_override) = false →
        workingArchlist env build_tag extra opts =
          pySplit (match extra with
            | some e =>
              if pyStrTruthy e then
                (env.getBuildConfig build_tag).arches ++ " " ++ e
              else (env.getBuildConfig build_tag).arches
            | none => (env.getBuildConfig build_tag).arches))
    ∧ (∀ extra o, getArchList env build_tag extra
          { scratch := false, arch_override := o } =
        getArchList env build_tag extra
          { scratch := false, arch_override := none })
    ∧ (∀ o, pyStrTruthy (env.getBuildConfig build_tag).arches = true →
        getArchList env build_tag none { scratch := false, arch_override := o } =
          archFilterStep env (tagArchlist env build_tag)
            (pySplit (env.getBuildConfig build_tag).arches)) := by
  refine ⟨fun extra ov h => workingArchlist_override h, ?_, ?_, ?_⟩
  · intro extra opts h
    unfold workingArchlist
    simp [h]
  · intro extra o
    rfl
  · intro o harch
    rw [getArchList_eq_filterStep harch]
    rfl

theorem getArchList_override_policy_witness :
    workingArchlist sampleEnv "t1-build" none
        { scratch := true, arch_override := some "s390x" } = pySplit "s390x"
    ∧ workingArchlist sampleEnv "t1-build" none
        { scratch := false, arch_override := some "s390x" } =
          pySplit "x86_64 ppc64le"
    ∧ getArchList sampleEnv "t1-build" none
        { scratch := false, arch_override := some "s390x" } =
          archFilterStep sampleEnv (tagArchlist sampleEnv "t1-build")
            (pySplit "x86_64 ppc64le") :=
  ⟨(getArchList_override_policy sampleEnv "t1-build").1 none (some "s390x") rfl,
   (getArchList_override_policy sampleEnv "t1-build").2.1 none
     { scratch := false, arch_override := some "s390x" } rfl,
   (getArchList_override_policy sampleEnv "t1-build").2.2.2 (some "s390x") rfl⟩

/-- C7: for a scratch build with a truthy arch override, a successful
resolution equals (as a set: membership iff) the override tokens that are
`'noarch'` or canonical-equal to a tag-declared arch — the override still
passes through the filter; when no override token passes the filter (the
declared-arch gate having passed), resolution fails with the
`No matching arches were found` error rather than returning the override
unfiltered; in particular, in the concrete scenario (declared
`x86_64 ppc64le`, override `s390x`, identity canonicalization) resolution
fails with that error. -/
theorem getArchList_override_still_filtered :
    (∀ (env : BuildEnv) (build_tag : String) (extra : Option String)
        (ov : String) (l : List String), pyStrTruthy ov = true →
      getArchList env build_tag extra
          { scratch := true, arch_override := some ov } = .ok l →
      ∀ a, a ∈ l ↔ (a ∈ pySplit ov ∧
        (a = "noarch" ∨
          (tagArchlist env build_tag).contains (env.canonArch a) = true)))
    ∧ (∀ (env : BuildEnv) (build_tag : String) (extra : Option String)
        (ov : String), pyStrTruthy ov = true →
      pyStrTruthy (env.getBuildConfig build_tag).arches = true →
      (pySplit ov).filter (fun a => a == "noarch" ||
        (tagArchlist env build_tag).contains (env.canonArch a)) = [] →
      getArchList env build_tag extra
          { scratch := true, arch_override := some ov } =
        .error (.buildError "No matching arches were found"))
    ∧ getArchList sampleEnv "t1-build" none
        { scratch := true, arch_override := some "s390x" } =
          .error (.buildError "No matching arches were found") := by
  refine ⟨?_, ?_, rfl⟩
  · intro env build_tag extra ov l hov h
    by_cases harch : pyStrTruthy (env.getBuildConfig build_tag).arches = true
    · rw [getArchList_eq_filterStep harch] at h
      rw [workingArchlist_override (by simpa [optTruthy] using hov)] at h
      have hl := archFilterStep_ok_eq h
      intro a
      rw [hl, mem_dictKeys, List.mem_filter]
      constructor
      · intro ⟨h1, h2⟩
        refine ⟨by simpa using h1, ?_⟩
        simpa [Bool.or_eq_true, beq_iff_eq] using h2
      · intro ⟨h1, h2⟩
        refine ⟨by simpa using h1, ?_⟩
        simpa [Bool.or_eq_true, beq_iff_eq] using h2
    · rw [Bool.not_eq_true] at harch
      unfold getArchList at h
      simp [harch] at h
  · intro env build_tag extra ov hov harch hfil
    rw [getArchList_eq_filterStep harch]
    rw [workingArchlist_override (by simpa [optTruthy] using hov)]
    unfold archFilterStep
    dsimp only
    rw [Option.getD_some, hfil]
    rfl

theorem getArchList_override_still_filtered_witness :
    (∀ a, a ∈ (["ppc64le", "x86_64"] : List String) ↔
      (a ∈ pySplit "ppc64le x86_64" ∧
        (a = "noarch" ∨
          (tagArchlist sampleEnv "t1-build").contains (sampleEnv.canonArch a) = true)))
    ∧ getArchList sampleEnv "t1-build" none
        { scratch := true, arch_override := some "s390x" } =
          .error (.buildError "No matching arches were found") :=
  ⟨getArchList_override_still_filtered.1 sampleEnv "t1-build" none
     "ppc64le x86_64" ["ppc64le", "x86_64"] rfl rfl,
   getArchList_override_still_filtered.2.1 sampleEnv "t1-build" none "s390x"
     rfl rfl rfl⟩

/-- The task ids handed to the join: one `subtask` dispatch per arch, in arch
order. -/
def subtaskIds (env : BuildEnv) (arches : List String) : List Nat :=
  arches.map env.subtaskId

/-- The host-call trace of the dispatch loop of `runBuilds`. -/
def subtaskCalls (env : BuildEnv) (src : String) (target_info : TargetInfo)
    (build_tag : String) (arches : List String) : List HostCall :=
  arches.map (fun a => HostCall.subtask src target_info build_tag a (env.subtaskId a))

theorem runBuilds_eq (env : BuildEnv) (src : String) (target_info : TargetInfo)
    (build_tag : String) (arches : List String) :
    runBuilds env src target_info build_tag arches =
      (env.wait (subtaskIds env arches),
       subtaskCalls env src target_info build_tag arches) := by
  unfold runBuilds subtaskIds subtaskCalls
  simp only [List.map_map]
  rfl

theorem buildContainerHandler_join_error {env : BuildEnv} {selfId : Nat}
    {src target : String} {opts : Opts} {archlist : List String} {e : KojiErr}
    (hs : opts.scratch = true) (hscm : env.isScmUrl src = true)
    (ha : getArchList env (env.getBuildTarget target).build_tag none opts =
      .ok archlist)
    (hw : env.wait (subtaskIds env archlist) = .error e) :
    buildContainerHandler env selfId src target opts =
      (.error e,
       subtaskCalls env src (env.getBuildTarget target)
         (env.getBuildTarget target).build_tag archlist) := by
  unfold buildContainerHandler
  dsimp only
  rw [ha]
  simp only [hs, hscm, Bool.not_true, Bool.false_eq_true, if_false,
    runBuilds_eq, hw]

/-- An environment whose fail-fast join raises (here with the cancellation
signal `KeyboardInterrupt`). -/
def failJoinEnv : BuildEnv :=
  { sampleEnv with wait := fun _ => .error .keyboardInterrupt }

/-- C3: if the fail-fast join raises (any dispatched subtask failed), the
handler re-raises that error and its trace contains the dispatch calls only —
in particular no `moveContainerToScratch` finalization call is ever made in
that run. -/
theorem join_failure_skips_scratch_finalization (env : BuildEnv)
    (selfId : Nat) (src target : String) (opts : Opts)
    (archlist : List String) (e : KojiErr)
    (hs : opts.scratch = true) (hscm : env.isScmUrl src = true)
    (ha : getArchList env (env.getBuildTarget target).build_tag none opts =
      .ok archlist)
    (hw : env.wait (subtaskIds env archlist) = .error e) :
    (buildContainerHandler env selfId src target opts).1 = .error e ∧
      ∀ tid rs, HostCall.moveContainerToScratch tid rs ∉
        (buildContainerHandler env selfId src target opts).2 := by
  rw [buildContainerHandler_join_error hs hscm ha hw]
  refine ⟨rfl, ?_⟩
  intro tid rs hmem
  simp [subtaskCalls] at hmem

theorem join_failure_skips_scratch_finalization_witness :
    (buildContainerHandler failJoinEnv 1 "git://host/repo#rev" "t1"
        { scratch := true, arch_override := none }).1 =
      .error .keyboardInterrupt ∧
    ∀ tid rs, HostCall.moveContainerToScratch tid rs ∉
      (buildContainerHandler failJoinEnv 1 "git://host/repo#rev" "t1"
        { scratch := true, arch_override := none }).2 :=
  join_failure_skips_scratch_finalization failJoinEnv 1 "git://host/repo#rev"
    "t1" { scratch := true, arch_override := none } ["x86_64", "ppc64le"]
    .keyboardInterrupt rfl rfl rfl rfl

/-- C9: any exception raised during the dispatched phase of a scratch run —
including the cancellation / exit signals `SystemExit`, `ServerExit` and
`KeyboardInterrupt`, for which `KojiErr.isCancelSignal` is true — is
re-raised by the handler unchanged (neither caught, converted nor wrapped),
and the trace is exactly the dispatch calls: the error path makes no
build-record transition and no additional side-effecting host call. -/
theorem dispatched_phase_errors_reraised_unchanged (env : BuildEnv)
    (selfId : Nat) (src target : String) (opts : Opts)
    (archlist : List String) (e : KojiErr)
    (hs : opts.scratch = true) (hscm : env.isScmUrl src = true)
    (ha : getArchList env (env.getBuildTarget target).build_tag none opts =
      .ok archlist)
    (hw : env.wait (subtaskIds env archlist) = .error e) :
    (buildContainerHandler env selfId src target opts).1 = .error e ∧
      (buildContainerHandler env selfId src target opts).2 =
        subtaskCalls env src (env.getBuildTarget target)
          (env.getBuildTarget target).build_tag archlist := by
  rw [buildContainerHandler_join_error hs hscm ha hw]
  exact ⟨rfl, rfl⟩

theorem dispatched_phase_errors_reraised_unchanged_witness :
    ((buildContainerHandler failJoinEnv 2 "git://host/repo#rev" "t1"
        { scratch := true, arch_override := none }).1 =
      .error .keyboardInterrupt ∧
    (buildContainerHandler failJoinEnv 2 "git://host/repo#rev" "t1"
        { scratch := true, arch_override := none }).2 =
      subtaskCalls failJoinEnv "git://host/repo#rev"
        (failJoinEnv.getBuildTarget "t1")
        (failJoinEnv.getBuildTarget "t1").build_tag ["x86_64", "ppc64le"]) ∧
    KojiErr.isCancelSignal .keyboardInterrupt = true :=
  ⟨dispatched_phase_errors_reraised_unchanged failJoinEnv 2
    "git://host/repo#rev" "t1" { scratch := true, arch_override := none }
    ["x86_64", "ppc64le"] .keyboardInterrupt rfl rfl rfl rfl, rfl⟩

/-- C4: when the options do not set the scratch flag, the handler makes no
host call at all (in particular no subtask dispatch), and — whenever
architecture resolution succeeded — it raises the explicit unsupported-mode
error (`NotImplementedError('Non-scratch container builds support is not
finished yet')`, the capability gate at source line 209). -/
theorem non_scratch_gate_before_dispatch (env : BuildEnv) (selfId : Nat)
    (src target : String) (opts : Opts) (hs : opts.scratch = false) :
    (buildContainerHandler env selfId src target opts).2 = [] ∧
      ∀ l, getArchList env (env.getBuildTarget target).build_tag none opts =
          .ok l →
        (buildContainerHandler env selfId src target opts).1 =
          .error (.notImplementedError
            "Non-scratch container builds support isn't finished yet") := by
  unfold buildContainerHandler
  dsimp only
  cases hga : getArchList env (env.getBuildTarget target).build_tag none opts with
  | error e =>
    refine ⟨rfl, ?_⟩
    intro l hl
    exact absurd hl (by simp)
  | ok archlist =>
    constructor
    · simp [hs]
    · intro l _
      simp [hs]

theorem non_scratch_gate_before_dispatch_witness :
    (buildContainerHandler sampleEnv 1 "git://host/repo#rev" "t1"
        { scratch := false, arch_override := none }).2 = [] ∧
    (buildContainerHandler sampleEnv 1 "git://host/repo#rev" "t1"
        { scratch := false, arch_override := none }).1 =
      .error (.notImplementedError
        "Non-scratch container builds support isn't finished yet") :=
  ⟨(non_scratch_gate_before_dispatch sampleEnv 1 "git://host/repo#rev" "t1"
      { scratch := false, arch_override := none } rfl).1,
   (non_scratch_gate_before_dispatch sampleEnv 1 "git://host/repo#rev" "t1"
      { scratch := false, arch_override := none } rfl).2
     ["x86_64", "ppc64le"] rfl⟩

theorem string_data_append (a b : String) : (a ++ b).data = a.data ++ b.data :=
  rfl

/-- C8: the derived component name is the final path segment of the
repository path, with a trailing `.git` suffix stripped when present: for any
prefix `p`, a repository path `p ++ "/foo.git"` and one `p ++ "/foo"` both
yield the component name `foo`. -/
theorem component_name_strips_git_suffix (p : String) :
    componentOf (p ++ "/foo.git") = "foo" ∧ componentOf (p ++ "/foo") = "foo" := by
  have h1 : (p ++ "/foo.git").data.reverse =
      ['t', 'i', 'g', '.', 'o', 'o', 'f', '/'] ++ p.data.reverse := by
    show (p.data ++ "/foo.git".data).reverse = _
    rw [List.reverse_append]
    rfl
  have h2 : (p ++ "/foo").data.reverse =
      ['o', 'o', 'f', '/'] ++ p.data.reverse := by
    show (p.data ++ "/foo".data).reverse = _
    rw [List.reverse_append]
    rfl
  constructor
  · have hc : endsWithGit (p ++ "/foo.git") = true := by
      unfold endsWithGit
      rw [h1]
      rfl
    unfold componentOf
    rw [if_pos hc]
    unfold basename dropLast4
    show String.mk (((((p ++ "/foo.git").data.reverse.drop 4).reverse).reverse.takeWhile
      (fun c => c ≠ '/')).reverse) = "foo"
    rw [List.reverse_reverse, h1]
    rfl
  · have hc : endsWithGit (p ++ "/foo") = false := by
      unfold endsWithGit
      rw [h2]
      rfl
    unfold componentOf
    rw [hc]
    show String.mk (((p ++ "/foo").data.reverse.takeWhile
      (fun c => c ≠ '/')).reverse) = "foo"
    rw [h2]
    rfl

/-- C10: on every successful completion, `createContainer` returns the
`imgdata` record (whose type `ImgData` has exactly the fields `task_id`,
`logs`, `osbs_build_id`) with `task_id` the task's own id, `osbs_build_id`
the id returned by the `create_build` submission, and `logs` exactly
`['build.log']` regardless of the remote build's content or outcome. -/
theorem createContainer_result_shape (env : CreateEnv) (selfId : Nat)
    (src : String) (target_info : TargetInfo) (build_tag arch : String)
    (scm : ScmInfo) (img : ImgData)
    (hscm : env.parseScm src = .ok scm)
    (h : createContainerHandler env selfId src target_info build_tag arch =
      .ok img) :
    img.task_id = selfId ∧ img.logs = ["build.log"] ∧
      img.osbs_build_id = env.createBuild (mkGitUri scm) scm.revision
        env.ownerName (componentOf scm.repository) target_info.name arch := by
  unfold createContainerHandler at h
  rw [hscm] at h
  dsimp only at h
  split at h
  · exact absurd h (by simp)
  · have := Except.ok.inj h
    subst this
    exact ⟨rfl, rfl, rfl⟩

/-- A concrete OSBS-side environment: the source parses to a bare git
repository on `example.com`, submission returns OSBS build id `osbs-42`, the
remote build finishes. -/
def sampleCreateEnv : CreateEnv where
  ownerName := "alice"
  parseScm := fun _ => .ok
    { scheme := "git+https://", host := "example.com",
      repository := "/containers/foo.git", revision := "abc123" }
  createBuild := fun _ _ _ _ _ _ => "osbs-42"
  waitForBuild := fun _ => .ok ()
  getBuildLogs := fun _ => "remote build log text"

theorem createContainer_result_shape_witness :
    (⟨101, ["build.log"], "osbs-42"⟩ : ImgData).task_id = 101 ∧
    (⟨101, ["build.log"], "osbs-42"⟩ : ImgData).logs = ["build.log"] ∧
    (⟨101, ["build.log"], "osbs-42"⟩ : ImgData).osbs_build_id =
      sampleCreateEnv.createBuild
        (mkGitUri { scheme := "git+https://", host := "example.com",
                    repository := "/containers/foo.git", revision := "abc123" })
        "abc123" sampleCreateEnv.ownerName (componentOf "/containers/foo.git")
        "t1" "x86_64" :=
  createContainer_result_shape sampleCreateEnv 101
    "git+https://example.com/containers/foo.git#abc123"
    { name := "t1", build_tag := "t1-build" } "t1-build" "x86_64"
    { scheme := "git+https://", host := "example.com",
      repository := "/containers/foo.git", revision := "abc123" }
    ⟨101, ["build.log"], "osbs-42"⟩ rfl rfl

end KojiContainerBuild
